import Mathlib

/-!
Verification development for the SharedMessaging layer of the dual-daemon
macOS application (Sources/SharedMessaging: MessageTypes.swift,
Configuration.swift, PubSubManager.swift).

The Swift sources are shallowly embedded:
* Swift `Double` / `TimeInterval` / `Date` values are modelled as `Rat`
  (the JSON layer carries exact numbers; no claim depends on float rounding).
* `UUID` is modelled as its `uuidString`.
* `JSONEncoder`/`JSONDecoder` on the `Codable` message structs are modelled
  by a `Json` value type plus per-struct `toJson`/`fromJson` functions that
  follow Swift's synthesized `Codable` conformance: objects keyed by the
  property names, `String`-raw-value enums encoded as their raw strings,
  `Optional` properties omitted when `nil` (`encodeIfPresent` /
  `decodeIfPresent`), and a `let` property with an initial value
  (`messageType`) encoded but *not* decoded.
* Swift `Dictionary<String, String>` is modelled as an association list.
* The `pendingResponses: [UUID: (ResponseMessage) -> Void]` dictionary is
  modelled as an association list from `UUID` to an abstract waiter
  (continuation) identifier `Nat`; invoking a continuation is modelled by
  appending to a resume log.
-/

/-- JSON values, the codomain of the modelled `JSONEncoder`. -/
inductive Json where
  | null : Json
  | bool : Bool → Json
  | num : Rat → Json
  | str : String → Json
  | obj : List (String × Json) → Json

/-- Model of Foundation `UUID`, identified with its `uuidString`. -/
structure UUID where
  uuidString : String
deriving DecidableEq

/-- `MessageType` (MessageTypes.swift): the envelope kinds. -/
inductive MessageType where
  | heartbeat
  | systemStatus
  | userActivity
  | configuration
  | command
  | response
  | error
  | shutdown
deriving DecidableEq

/-- Raw string values of `MessageType` (`String`-backed enum). -/
def MessageType.rawValue : MessageType → String
  | .heartbeat => "heartbeat"
  | .systemStatus => "system_status"
  | .userActivity => "user_activity"
  | .configuration => "configuration"
  | .command => "command"
  | .response => "response"
  | .error => "error"
  | .shutdown => "shutdown"

/-- `DaemonType` (MessageTypes.swift): the daemon roles. -/
inductive DaemonType where
  | user
  | system
  | broadcast
deriving DecidableEq

def DaemonType.rawValue : DaemonType → String
  | .user => "user_daemon"
  | .system => "system_daemon"
  | .broadcast => "broadcast"

/-- Decoding a `DaemonType` from its raw string (`init?(rawValue:)`). -/
def DaemonType.fromRaw (s : String) : Option DaemonType :=
  if s = "user_daemon" then some .user
  else if s = "system_daemon" then some .system
  else if s = "broadcast" then some .broadcast
  else none

/-- `MessagePriority` (MessageTypes.swift). -/
inductive MessagePriority where
  | low
  | normal
  | high
  | critical
deriving DecidableEq

def MessagePriority.rawValue : MessagePriority → String
  | .low => "low"
  | .normal => "normal"
  | .high => "high"
  | .critical => "critical"

def MessagePriority.fromRaw (s : String) : Option MessagePriority :=
  if s = "low" then some .low
  else if s = "normal" then some .normal
  else if s = "high" then some .high
  else if s = "critical" then some .critical
  else none

/-- `SystemStatus` (MessageTypes.swift). -/
inductive SystemStatus where
  | healthy
  | degraded
  | critical
  | maintenance
deriving DecidableEq

def SystemStatus.rawValue : SystemStatus → String
  | .healthy => "healthy"
  | .degraded => "degraded"
  | .critical => "critical"
  | .maintenance => "maintenance"

def SystemStatus.fromRaw (s : String) : Option SystemStatus :=
  if s = "healthy" then some .healthy
  else if s = "degraded" then some .degraded
  else if s = "critical" then some .critical
  else if s = "maintenance" then some .maintenance
  else none

/-- `HeartbeatMessage` stored properties (its `messageType` is the constant
`.heartbeat` and is therefore not a field of the model). -/
structure HeartbeatMessage where
  id : UUID
  timestamp : Rat
  source : DaemonType
  target : Option DaemonType
  systemLoad : Option Rat
  memoryUsage : Option Rat
  uptime : Rat
deriving DecidableEq

/-- `SystemStatusMessage` stored properties. -/
structure SystemStatusMessage where
  id : UUID
  timestamp : Rat
  source : DaemonType
  target : Option DaemonType
  status : SystemStatus
  details : Option (List (String × String))
deriving DecidableEq

/-- `CommandMessage` stored properties. -/
structure CommandMessage where
  id : UUID
  timestamp : Rat
  source : DaemonType
  target : Option DaemonType
  command : String
  parameters : Option (List (String × String))
  priority : MessagePriority
  requiresResponse : Bool
deriving DecidableEq

/-- `ResponseMessage` stored properties. -/
structure ResponseMessage where
  id : UUID
  timestamp : Rat
  source : DaemonType
  target : Option DaemonType
  correlationId : UUID
  success : Bool
  result : Option String
  errorMessage : Option String
deriving DecidableEq

/-- The closed union of the four concrete `BaseMessage` conformers that the
messaging layer encodes and decodes. -/
inductive BaseMessage where
  | heartbeat : HeartbeatMessage → BaseMessage
  | systemStatus : SystemStatusMessage → BaseMessage
  | command : CommandMessage → BaseMessage
  | response : ResponseMessage → BaseMessage
deriving DecidableEq

/-- `messageType` of a message: each struct fixes it to a constant. -/
def BaseMessage.messageType : BaseMessage → MessageType
  | .heartbeat _ => .heartbeat
  | .systemStatus _ => .systemStatus
  | .command _ => .command
  | .response _ => .response

def BaseMessage.source : BaseMessage → DaemonType
  | .heartbeat m => m.source
  | .systemStatus m => m.source
  | .command m => m.source
  | .response m => m.source

def BaseMessage.target : BaseMessage → Option DaemonType
  | .heartbeat m => m.target
  | .systemStatus m => m.target
  | .command m => m.target
  | .response m => m.target

/-! ### The modelled `JSONEncoder` / `JSONDecoder` on the message structs -/

/-- Lookup of a key among the fields of a JSON object. -/
def fieldsGet {β : Type} (k : String) : List (String × β) → Option β
  | [] => none
  | (k2, v) :: rest => if k2 = k then some v else fieldsGet k rest

def Json.asStr : Json → Option String
  | .str s => some s
  | _ => none

def Json.asNum : Json → Option Rat
  | .num q => some q
  | _ => none

def Json.asBool : Json → Option Bool
  | .bool b => some b
  | _ => none

/-- `encodeIfPresent`: an optional property contributes its key only when
present. -/
def optField (k : String) : Option Json → List (String × Json)
  | none => []
  | some j => [(k, j)]

/-- `decodeIfPresent` for a numeric optional property: a missing key or an
explicit `null` is `nil`; a present value must be a number. -/
def decodeOptNum (fs : List (String × Json)) (k : String) : Option (Option Rat) :=
  match fieldsGet k fs with
  | none => some none
  | some .null => some none
  | some (.num q) => some (some q)
  | some _ => none

/-- `decodeIfPresent` for an optional `String` property. -/
def decodeOptStr (fs : List (String × Json)) (k : String) : Option (Option String) :=
  match fieldsGet k fs with
  | none => some none
  | some .null => some none
  | some (.str s) => some (some s)
  | some _ => none

/-- `decodeIfPresent` for an optional `DaemonType` property (the `target`
field): a present value must be a valid raw string. -/
def decodeOptRole (fs : List (String × Json)) (k : String) : Option (Option DaemonType) :=
  match fieldsGet k fs with
  | none => some none
  | some .null => some none
  | some (.str s) => (DaemonType.fromRaw s).map some
  | some _ => none

/-- Encoding of a Swift `[String: String]` dictionary. -/
def encodeStrMap (d : List (String × String)) : Json :=
  .obj (d.map fun p => (p.1, .str p.2))

/-- Decoding of a `[String: String]` dictionary body: every value must be a
string. -/
def decodeStrMapFields : List (String × Json) → Option (List (String × String))
  | [] => some []
  | (k, .str v) :: rest => (decodeStrMapFields rest).map (fun d => (k, v) :: d)
  | _ => none

/-- `decodeIfPresent` for an optional `[String: String]` property. -/
def decodeOptStrMap (fs : List (String × Json)) (k : String) :
    Option (Option (List (String × String))) :=
  match fieldsGet k fs with
  | none => some none
  | some .null => some none
  | some (.obj dfs) => (decodeStrMapFields dfs).map some
  | some _ => none

/-- `JSONEncoder().encode` on `HeartbeatMessage` (synthesized `Codable`,
property order `id`, `timestamp`, `messageType`, `source`, `target`,
`systemLoad`, `memoryUsage`, `uptime`). -/
def HeartbeatMessage.toJson (m : HeartbeatMessage) : Json :=
  .obj ([("id", .str m.id.uuidString),
         ("timestamp", .num m.timestamp),
         ("messageType", .str MessageType.heartbeat.rawValue),
         ("source", .str m.source.rawValue)]
        ++ optField "target" (m.target.map fun t => .str t.rawValue)
        ++ optField "systemLoad" (m.systemLoad.map Json.num)
        ++ optField "memoryUsage" (m.memoryUsage.map Json.num)
        ++ [("uptime", .num m.uptime)])

/-- `JSONDecoder().decode(HeartbeatMessage.self, ...)`.  The `messageType`
property is a `let` with an initial value, so Swift does not decode it: the
key is ignored and the constant retained. -/
def HeartbeatMessage.fromJson : Json → Option HeartbeatMessage
  | .obj fs => do
    let i ← (fieldsGet "id" fs).bind Json.asStr
    let ts ← (fieldsGet "timestamp" fs).bind Json.asNum
    let src ← ((fieldsGet "source" fs).bind Json.asStr).bind DaemonType.fromRaw
    let tgt ← decodeOptRole fs "target"
    let sl ← decodeOptNum fs "systemLoad"
    let mu ← decodeOptNum fs "memoryUsage"
    let up ← (fieldsGet "uptime" fs).bind Json.asNum
    some ⟨⟨i⟩, ts, src, tgt, sl, mu, up⟩
  | _ => none

/-- `JSONEncoder().encode` on `SystemStatusMessage`. -/
def SystemStatusMessage.toJson (m : SystemStatusMessage) : Json :=
  .obj ([("id", .str m.id.uuidString),
         ("timestamp", .num m.timestamp),
         ("messageType", .str MessageType.systemStatus.rawValue),
         ("source", .str m.source.rawValue)]
        ++ optField "target" (m.target.map fun t => .str t.rawValue)
        ++ [("status", .str m.status.rawValue)]
        ++ optField "details" (m.details.map encodeStrMap))

/-- `JSONDecoder().decode(SystemStatusMessage.self, ...)`. -/
def SystemStatusMessage.fromJson : Json → Option SystemStatusMessage
  | .obj fs => do
    let i ← (fieldsGet "id" fs).bind Json.asStr
    let ts ← (fieldsGet "timestamp" fs).bind Json.asNum
    let src ← ((fieldsGet "source" fs).bind Json.asStr).bind DaemonType.fromRaw
    let tgt ← decodeOptRole fs "target"
    let st ← ((fieldsGet "status" fs).bind Json.asStr).bind SystemStatus.fromRaw
    let det ← decodeOptStrMap fs "details"
    some ⟨⟨i⟩, ts, src, tgt, st, det⟩
  | _ => none

/-- `JSONEncoder().encode` on `CommandMessage`. -/
def CommandMessage.toJson (m : CommandMessage) : Json :=
  .obj ([("id", .str m.id.uuidString),
         ("timestamp", .num m.timestamp),
         ("messageType", .str MessageType.command.rawValue),
         ("source", .str m.source.rawValue)]
        ++ optField "target" (m.target.map fun t => .str t.rawValue)
        ++ [("command", .str m.command)]
        ++ optField "parameters" (m.parameters.map encodeStrMap)
        ++ [("priority", .str m.priority.rawValue),
            ("requiresResponse", .bool m.requiresResponse)])

/-- `JSONDecoder().decode(CommandMessage.self, ...)`. -/
def CommandMessage.fromJson : Json → Option CommandMessage
  | .obj fs => do
    let i ← (fieldsGet "id" fs).bind Json.asStr
    let ts ← (fieldsGet "timestamp" fs).bind Json.asNum
    let src ← ((fieldsGet "source" fs).bind Json.asStr).bind DaemonType.fromRaw
    let tgt ← decodeOptRole fs "target"
    let cmd ← (fieldsGet "command" fs).bind Json.asStr
    let par ← decodeOptStrMap fs "parameters"
    let pri ← ((fieldsGet "priority" fs).bind Json.asStr).bind MessagePriority.fromRaw
    let rr ← (fieldsGet "requiresResponse" fs).bind Json.asBool
    some ⟨⟨i⟩, ts, src, tgt, cmd, par, pri, rr⟩
  | _ => none

/-- `JSONEncoder().encode` on `ResponseMessage`. -/
def ResponseMessage.toJson (m : ResponseMessage) : Json :=
  .obj ([("id", .str m.id.uuidString),
         ("timestamp", .num m.timestamp),
         ("messageType", .str MessageType.response.rawValue),
         ("source", .str m.source.rawValue)]
        ++ optField "target" (m.target.map fun t => .str t.rawValue)
        ++ [("correlationId", .str m.correlationId.uuidString),
            ("success", .bool m.success)]
        ++ optField "result" (m.result.map Json.str)
        ++ optField "errorMessage" (m.errorMessage.map Json.str))

/-- `JSONDecoder().decode(ResponseMessage.self, ...)`. -/
def ResponseMessage.fromJson : Json → Option ResponseMessage
  | .obj fs => do
    let i ← (fieldsGet "id" fs).bind Json.asStr
    let ts ← (fieldsGet "timestamp" fs).bind Json.asNum
    let src ← ((fieldsGet "source" fs).bind Json.asStr).bind DaemonType.fromRaw
    let tgt ← decodeOptRole fs "target"
    let cid ← (fieldsGet "correlationId" fs).bind Json.asStr
    let suc ← (fieldsGet "success" fs).bind Json.asBool
    let res ← decodeOptStr fs "result"
    let err ← decodeOptStr fs "errorMessage"
    some ⟨⟨i⟩, ts, src, tgt, ⟨cid⟩, suc, res, err⟩
  | _ => none

/-- `JSONEncoder().encode` on a `BaseMessage` value. -/
def BaseMessage.toJson : BaseMessage → Json
  | .heartbeat m => m.toJson
  | .systemStatus m => m.toJson
  | .command m => m.toJson
  | .response m => m.toJson

/-! ### `PubSubMessage` — the transport frame (MessageTypes.swift) -/

/-- `PubSubMessage`: the wire frame. `payload` holds the serialized message
(modelled as its JSON value). -/
structure PubSubMessage where
  messageType : MessageType
  payload : Json
  priority : MessagePriority
  source : DaemonType
  target : Option DaemonType

/-- `PubSubMessage.init(message:priority:)`: tags the payload's kind and
copies `source`/`target` from the embedded message. -/
def PubSubMessage.init (message : BaseMessage)
    (priority : MessagePriority := .normal) : PubSubMessage :=
  { messageType := message.messageType
    payload := message.toJson
    priority := priority
    source := message.source
    target := message.target }

/-- The failures that `decodeMessage` can throw: the dispatcher's own
`PubSubError.unsupportedMessageType`, or a Foundation `DecodingError` from
`PubSubMessage.decode(as:)`. -/
inductive DecodeFailure where
  | unsupportedMessageType : MessageType → DecodeFailure
  | decodingError : DecodeFailure
deriving DecidableEq

/-- `decodeMessage` (PubSubManager.swift): dispatch on the frame's declared
kind and decode the payload with `decode(as:)` for the matching struct;
kinds other than the four concrete structs throw
`PubSubError.unsupportedMessageType`. -/
def decodeMessage (p : PubSubMessage) : Except DecodeFailure BaseMessage :=
  match p.messageType with
  | .heartbeat =>
    match HeartbeatMessage.fromJson p.payload with
    | some m => .ok (.heartbeat m)
    | none => .error .decodingError
  | .systemStatus =>
    match SystemStatusMessage.fromJson p.payload with
    | some m => .ok (.systemStatus m)
    | none => .error .decodingError
  | .command =>
    match CommandMessage.fromJson p.payload with
    | some m => .ok (.command m)
    | none => .error .decodingError
  | .response =>
    match ResponseMessage.fromJson p.payload with
    | some m => .ok (.response m)
    | none => .error .decodingError
  | mt => .error (.unsupportedMessageType mt)

/-! ### Round-trip lemmas for the payload codecs -/

theorem decodeStrMapFields_encode (d : List (String × String)) :
    decodeStrMapFields (d.map fun p => (p.1, .str p.2)) = some d := by
  induction d with
  | nil => rfl
  | cons p rest ih => cases p; simp [decodeStrMapFields, ih]

theorem heartbeat_fromJson_toJson (m : HeartbeatMessage) :
    HeartbeatMessage.fromJson m.toJson = some m := by
  obtain ⟨⟨i⟩, ts, src, tgt, sl, mu, up⟩ := m
  rcases src with _ | _ | _ <;> rcases tgt with _ | (_ | _ | _) <;>
    rcases sl with _ | sl <;> rcases mu with _ | mu <;> rfl

theorem systemStatus_fromJson_toJson (m : SystemStatusMessage) :
    SystemStatusMessage.fromJson m.toJson = some m := by
  obtain ⟨⟨i⟩, ts, src, tgt, st, det⟩ := m
  rcases src with _ | _ | _ <;> rcases tgt with _ | (_ | _ | _) <;>
    rcases st with _ | _ | _ | _ <;> rcases det with _ | det <;>
    simp [SystemStatusMessage.toJson, SystemStatusMessage.fromJson, optField,
      encodeStrMap, fieldsGet, decodeOptRole, decodeOptStrMap, decodeOptNum,
      DaemonType.rawValue, DaemonType.fromRaw, SystemStatus.rawValue,
      SystemStatus.fromRaw, Json.asStr, Json.asNum, Json.asBool,
      decodeStrMapFields_encode, Option.bind, MessageType.rawValue]

theorem command_fromJson_toJson (m : CommandMessage) :
    CommandMessage.fromJson m.toJson = some m := by
  obtain ⟨⟨i⟩, ts, src, tgt, cmd, par, pri, rr⟩ := m
  rcases src with _ | _ | _ <;> rcases tgt with _ | (_ | _ | _) <;>
    rcases pri with _ | _ | _ | _ <;> rcases par with _ | par <;>
    simp [CommandMessage.toJson, CommandMessage.fromJson, optField,
      encodeStrMap, fieldsGet, decodeOptRole, decodeOptStrMap, decodeOptNum,
      DaemonType.rawValue, DaemonType.fromRaw, MessagePriority.rawValue,
      MessagePriority.fromRaw, Json.asStr, Json.asNum, Json.asBool,
      decodeStrMapFields_encode, Option.bind, MessageType.rawValue]

theorem response_fromJson_toJson (m : ResponseMessage) :
    ResponseMessage.fromJson m.toJson = some m := by
  obtain ⟨⟨i⟩, ts, src, tgt, ⟨cid⟩, suc, res, err⟩ := m
  rcases src with _ | _ | _ <;> rcases tgt with _ | (_ | _ | _) <;>
    rcases res with _ | res <;> rcases err with _ | err <;> rfl

/-! ### The pending-response dictionary and the dispatcher
(PubSubManager.swift) -/

/-- Lookup in a Swift `Dictionary` modelled as an association list. -/
def dictGet {α β : Type} [DecidableEq α] (k : α) : List (α × β) → Option β
  | [] => none
  | (k2, v) :: rest => if k2 = k then some v else dictGet k rest

/-- Removal of a key (`removeValue(forKey:)`'s effect on the dictionary). -/
def dictRemove {α β : Type} [DecidableEq α] (k : α) : List (α × β) → List (α × β)
  | [] => []
  | (k2, v) :: rest =>
    if k2 = k then dictRemove k rest else (k2, v) :: dictRemove k rest

/-- Subscript assignment `dict[k] = v`: installs `v`, replacing any previous
value under `k`. -/
def dictInsert {α β : Type} [DecidableEq α] (k : α) (v : β)
    (l : List (α × β)) : List (α × β) :=
  (k, v) :: dictRemove k l

/-- What `handleReceivedMessage` does with an inbound frame, beyond the
returned pending dictionary: each constructor is one exit path of the Swift
function. -/
inductive DispatchEffect where
  | droppedUndecodable : DispatchEffect
  | droppedSelfEcho : DispatchEffect
  | resolvedCorrelation : Nat → ResponseMessage → DispatchEffect
  | forwardedToDelegate : BaseMessage → DispatchEffect
  | loggedError : DecodeFailure → DispatchEffect
deriving DecidableEq

/-- `handleReceivedMessage` (PubSubManager.swift).  The raw wire payload is
`none` when the initial `guard`'s `JSONDecoder().decode(PubSubMessage.self,
...)` fails (log + drop).  The pending-response dictionary is threaded
explicitly; waiter continuations are abstract `Nat` identifiers.
Exit paths in source order: the decode guard, the self-echo check
(`pubSubMessage.source == daemonType`), the `decodeMessage` throw caught by
the surrounding `catch` (log + drop), the pending-response resolution
(`pendingResponses.removeValue(forKey: correlationId)`), and the delegate
forward. -/
def handleReceivedMessage (daemonType : DaemonType)
    (pendingResponses : List (UUID × Nat)) (raw : Option PubSubMessage) :
    List (UUID × Nat) × DispatchEffect :=
  match raw with
  | none => (pendingResponses, .droppedUndecodable)
  | some p =>
    if p.source = daemonType then
      (pendingResponses, .droppedSelfEcho)
    else
      match decodeMessage p with
      | .error e => (pendingResponses, .loggedError e)
      | .ok (.response r) =>
        match dictGet r.correlationId pendingResponses with
        | some w =>
          (dictRemove r.correlationId pendingResponses, .resolvedCorrelation w r)
        | none => (pendingResponses, .forwardedToDelegate (.response r))
      | .ok m => (pendingResponses, .forwardedToDelegate m)

/-! ### Claim C1 -/

/-- **C1.** For every payload variant (Heartbeat, SystemStatus, Command,
Response) and every priority, wrapping the message in a transport frame via
`PubSubMessage.init` and then decoding it back with `decode(as:)` for the
matching type (the dispatch performed by `decodeMessage`) returns a message
equal to the original: `decode(encode(payload)) == payload`. -/
theorem decode_encode_roundtrip (m : BaseMessage) (pr : MessagePriority) :
    decodeMessage (PubSubMessage.init m pr) = .ok m := by
  cases m <;>
    simp [decodeMessage, PubSubMessage.init, BaseMessage.messageType,
      BaseMessage.toJson, heartbeat_fromJson_toJson,
      systemStatus_fromJson_toJson, command_fromJson_toJson,
      response_fromJson_toJson]

/-! ### Claim C6 -/

/-- **C6 (amended).** Frames built by `PubSubMessage.init` agree with the
embedded envelope on `kind`/`source`/`target`; and a successfully decoded
message always agrees with the frame on `kind` (the embedded `messageType`
field is a `let` with an initial value, hence never decoded).  The decoder
performs no `source`/`target` cross-check (see the counterexample). -/
theorem frame_envelope_agreement :
    (∀ (m : BaseMessage) (pr : MessagePriority),
        (PubSubMessage.init m pr).messageType = m.messageType
      ∧ (PubSubMessage.init m pr).source = m.source
      ∧ (PubSubMessage.init m pr).target = m.target)
  ∧ (∀ (p : PubSubMessage) (b : BaseMessage),
        decodeMessage p = .ok b → b.messageType = p.messageType) := by
  constructor
  · intro m pr
    exact ⟨rfl, rfl, rfl⟩
  · intro p b h
    unfold decodeMessage at h
    split at h <;> try split at h
    all_goals simp_all [BaseMessage.messageType]
    all_goals (subst h; rfl)

/-- A heartbeat envelope whose `source` is `user`... -/
def hbMismatchC6 : HeartbeatMessage :=
  { id := ⟨"11111111-1111-1111-1111-111111111111"⟩
    timestamp := 0
    source := .user
    target := none
    systemLoad := none
    memoryUsage := none
    uptime := 0 }

/-- ...wrapped in a frame that declares `source = system`. -/
def frameMismatchC6 : PubSubMessage :=
  { messageType := .heartbeat
    payload := hbMismatchC6.toJson
    priority := .normal
    source := .system
    target := none }

/-- **C6 counterexample.** The decoder accepts a frame whose declared
`source` disagrees with the embedded envelope's `source`: no rejection
occurs, refuting "decoders must reject frames where they disagree". -/
theorem decoder_accepts_source_mismatch :
    decodeMessage frameMismatchC6 = .ok (.heartbeat hbMismatchC6)
    ∧ (BaseMessage.heartbeat hbMismatchC6).source ≠ frameMismatchC6.source :=
  ⟨rfl, by decide⟩

/-! ### Claim C2 -/

/-- **C2 (amended).** A frame whose `source` equals the dispatcher's own
role is dropped by the self-echo check, so the delegate is never invoked
for it; and a `broadcast`-sourced frame is never discarded by this check
when the local role is a concrete role (`user` or `system`).  When the
local role is `broadcast` itself, a broadcast-sourced frame *is* discarded
(see the counterexample). -/
theorem self_echo_suppression :
    (∀ (dt : DaemonType) (pending : List (UUID × Nat)) (p : PubSubMessage),
        p.source = dt →
        handleReceivedMessage dt pending (some p) = (pending, .droppedSelfEcho))
  ∧ (∀ (dt : DaemonType) (pending : List (UUID × Nat)) (p : PubSubMessage),
        dt ≠ .broadcast → p.source = .broadcast →
        (handleReceivedMessage dt pending (some p)).2 ≠ .droppedSelfEcho) := by
  constructor
  · intro dt pending p h
    simp [handleReceivedMessage, h]
  · intro dt pending p hdt hsrc
    have hne : ¬ (p.source = dt) := by
      rw [hsrc]
      intro hh
      exact hdt hh.symm
    rcases hd : decodeMessage p with e | m
    · simp [handleReceivedMessage, hne, hd]
    · cases m with
      | response r =>
        rcases hg : dictGet r.correlationId pending with _ | w <;>
          simp [handleReceivedMessage, hne, hd, hg]
      | heartbeat m => simp [handleReceivedMessage, hne, hd]
      | systemStatus m => simp [handleReceivedMessage, hne, hd]
      | command m => simp [handleReceivedMessage, hne, hd]

/-- A broadcast-sourced frame. -/
def frameBroadcastC2 : PubSubMessage :=
  { messageType := .heartbeat
    payload := .null
    priority := .normal
    source := .broadcast
    target := none }

/-- **C2 counterexample.** A dispatcher whose local role is `broadcast`
*does* discard a broadcast-sourced frame as self-echo, refuting "a frame
whose source is broadcast is never discarded by this self-echo check, for
any local role". -/
theorem broadcast_frame_discarded_for_broadcast_role :
    handleReceivedMessage .broadcast [] (some frameBroadcastC2)
      = ([], .droppedSelfEcho) := rfl

/-! ### Claim C10 -/

/-- **C10 (amended).** An inbound frame whose declared kind is
`user_activity`, `configuration`, `error` or `shutdown` never reaches the
observer callback and never touches the pending-response dictionary: if its
`source` equals the local role it is dropped by the self-echo check before
any payload decode, and otherwise `decodeMessage` throws
`PubSubError.unsupportedMessageType`, which the surrounding `catch` logs
locally. -/
theorem unsupported_kinds_logged_and_dropped (dt : DaemonType)
    (pending : List (UUID × Nat)) (p : PubSubMessage)
    (hk : p.messageType = .userActivity ∨ p.messageType = .configuration
        ∨ p.messageType = .error ∨ p.messageType = .shutdown) :
    handleReceivedMessage dt pending (some p)
      = (pending,
         if p.source = dt then .droppedSelfEcho
         else .loggedError (.unsupportedMessageType p.messageType)) := by
  obtain ⟨mt, pl, pr, src, tgt⟩ := p
  by_cases hs : src = dt
  · simp [handleReceivedMessage, hs]
  · rcases hk with h | h | h | h <;> (simp at h; subst h) <;>
      simp [handleReceivedMessage, hs, decodeMessage]

/-- A shutdown-kind frame from the system daemon. -/
def frameShutdownC10 : PubSubMessage :=
  { messageType := .shutdown
    payload := .null
    priority := .normal
    source := .system
    target := none }

/-- **C10 witness.** The amended theorem applied to a concrete
shutdown-kind frame received by the user daemon. -/
theorem unsupported_kinds_witness :
    handleReceivedMessage .user [] (some frameShutdownC10)
      = ([], if frameShutdownC10.source = .user then .droppedSelfEcho
             else .loggedError (.unsupportedMessageType frameShutdownC10.messageType)) :=
  unsupported_kinds_logged_and_dropped .user [] frameShutdownC10 (by decide)

/-- An error-kind frame whose `source` equals the local role. -/
def frameSelfErrorC10 : PubSubMessage :=
  { messageType := .error
    payload := .null
    priority := .normal
    source := .user
    target := none }

/-- **C10 counterexample.** For a self-echoed frame of kind `error`, the
decode step never runs: the frame is dropped by the self-echo check and no
`UnsupportedMessageType` error is raised or logged, refuting the claim's
universal "the dispatcher's decode step raises UnsupportedMessageType". -/
theorem self_echo_skips_unsupported_log :
    handleReceivedMessage .user [] (some frameSelfErrorC10) = ([], .droppedSelfEcho)
    ∧ DispatchEffect.droppedSelfEcho
        ≠ .loggedError (.unsupportedMessageType .error) :=
  ⟨rfl, by decide⟩

/-! ### Claim C9 -/

theorem dictGet_dictRemove {α β : Type} [DecidableEq α] (k : α)
    (l : List (α × β)) : dictGet k (dictRemove k l) = none := by
  induction l with
  | nil => rfl
  | cons p rest ih =>
    obtain ⟨k2, v⟩ := p
    by_cases h : k2 = k <;> simp [dictRemove, dictGet, h, ih]

/-- **C9.** A decoded Response whose `correlationId` has no pending waiter
is forwarded to the delegate (observer) instead of being dropped; when a
waiter is pending, the first matching Response removes and resolves it, and
delivering the same Response again finds no waiter and is forwarded to the
delegate. -/
theorem uncorrelated_response_forwarded (dt : DaemonType)
    (pending : List (UUID × Nat)) (p : PubSubMessage) (r : ResponseMessage)
    (w : Nat) (hdec : decodeMessage p = .ok (.response r))
    (hsrc : p.source ≠ dt) :
    (dictGet r.correlationId pending = none →
       handleReceivedMessage dt pending (some p)
         = (pending, .forwardedToDelegate (.response r)))
  ∧ (dictGet r.correlationId pending = some w →
       handleReceivedMessage dt pending (some p)
         = (dictRemove r.correlationId pending, .resolvedCorrelation w r)
       ∧ handleReceivedMessage dt (dictRemove r.correlationId pending) (some p)
         = (dictRemove r.correlationId pending,
            .forwardedToDelegate (.response r))) := by
  constructor
  · intro hnone
    simp [handleReceivedMessage, hsrc, hdec, hnone]
  · intro hsome
    constructor
    · simp [handleReceivedMessage, hsrc, hdec, hsome]
    · simp [handleReceivedMessage, hsrc, hdec, dictGet_dictRemove]

/-- A concrete Response from the system daemon answering command "cmd-9". -/
def rC9 : ResponseMessage :=
  { id := ⟨"99999999-0000-0000-0000-000000000009"⟩
    timestamp := 0
    source := .system
    target := some .user
    correlationId := ⟨"cmd-9"⟩
    success := true
    result := some "ok"
    errorMessage := none }

def pC9 : PubSubMessage := PubSubMessage.init (.response rC9) .normal

/-- **C9 witness.** The theorem applied to a concrete Response frame
received by the user daemon with one pending waiter for "cmd-9". -/
theorem uncorrelated_response_forwarded_witness :
    (dictGet rC9.correlationId [(⟨"cmd-9"⟩, 7)] = none →
       handleReceivedMessage .user [(⟨"cmd-9"⟩, 7)] (some pC9)
         = ([(⟨"cmd-9"⟩, 7)], .forwardedToDelegate (.response rC9)))
  ∧ (dictGet rC9.correlationId [(⟨"cmd-9"⟩, 7)] = some 7 →
       handleReceivedMessage .user [(⟨"cmd-9"⟩, 7)] (some pC9)
         = (dictRemove rC9.correlationId [(⟨"cmd-9"⟩, 7)],
            .resolvedCorrelation 7 rC9)
       ∧ handleReceivedMessage .user
            (dictRemove rC9.correlationId [(⟨"cmd-9"⟩, 7)]) (some pC9)
         = (dictRemove rC9.correlationId [(⟨"cmd-9"⟩, 7)],
            .forwardedToDelegate (.response rC9))) :=
  uncorrelated_response_forwarded .user [(⟨"cmd-9"⟩, 7)] pC9 rC9 7
    (by rfl) (by decide)

/-! ### The correlation tracker (publishAndWaitForResponse and its timeout
closure, PubSubManager.swift) -/

/-- An outcome delivered to a `publishAndWaitForResponse` continuation. -/
inductive Outcome where
  | response : ResponseMessage → Outcome
  | timedOut : Outcome
deriving DecidableEq

/-- The shared mutable correlation state: the `pendingResponses` dictionary
plus a log of continuation resumptions (each entry is one
`continuation.resume` on the waiter identified by the `Nat`). -/
structure CorrState where
  pending : List (UUID × Nat)
  resumes : List (Nat × Outcome)
deriving DecidableEq

/-- `pendingResponses[command.id] = { response in ... }` — the registration
performed by `publishAndWaitForResponse` (an unconditional subscript
assignment). -/
def registerPendingResponse (s : CorrState) (commandId : UUID) (w : Nat) :
    CorrState :=
  { s with pending := dictInsert commandId w s.pending }

/-- The events that can touch a pending waiter: an inbound frame on the
listener path, or the firing of the `asyncAfter` timeout closure created by
the registration of waiter `w` for `commandId`. -/
inductive CorrEvent where
  | frame : PubSubMessage → CorrEvent
  | timer : UUID → Nat → CorrEvent

/-- One step of the correlation state.  A frame runs
`handleReceivedMessage`; resolution (`responseHandler(responseMessage)`)
resumes the removed waiter.  A timer runs the timeout closure: `if
pendingResponses.removeValue(forKey: command.id) != nil {
continuation.resume(throwing: PubSubError.timeout) }` — note it resumes its
own lexical continuation `w`, guarded by the removal having found an
entry. -/
def corrStep (daemonType : DaemonType) (s : CorrState) : CorrEvent → CorrState
  | .frame p =>
    match handleReceivedMessage daemonType s.pending (some p) with
    | (pending2, .resolvedCorrelation w r) =>
      { pending := pending2, resumes := s.resumes ++ [(w, .response r)] }
    | (pending2, _) => { s with pending := pending2 }
  | .timer commandId w =>
    match dictGet commandId s.pending with
    | some _ =>
      { pending := dictRemove commandId s.pending
        resumes := s.resumes ++ [(w, .timedOut)] }
    | none => s

def corrRun (daemonType : DaemonType) (s : CorrState)
    (events : List CorrEvent) : CorrState :=
  events.foldl (corrStep daemonType) s

/-- An event aimed at the waiter `w` registered for `commandId`: a
non-self-echoed frame decoding to a Response with that `correlationId`, or
the timeout closure of that registration. -/
def targetsWaiter (daemonType : DaemonType) (commandId : UUID) (w : Nat) :
    CorrEvent → Prop
  | .frame p => p.source ≠ daemonType
      ∧ ∃ r, decodeMessage p = .ok (.response r) ∧ r.correlationId = commandId
  | .timer c w2 => c = commandId ∧ w2 = w

/-- How many times waiter `w` has been resumed. -/
def countResumes (w : Nat) (l : List (Nat × Outcome)) : Nat :=
  (l.filter fun q => q.1 == w).length

theorem countResumes_append (w : Nat) (l l2 : List (Nat × Outcome)) :
    countResumes w (l ++ l2) = countResumes w l + countResumes w l2 := by
  simp [countResumes, List.filter_append]

/-- Once the key is gone, every further targeted event is a no-op. -/
theorem corrRun_stable (dt : DaemonType) (commandId : UUID) (w : Nat)
    (s : CorrState) (events : List CorrEvent)
    (hnone : dictGet commandId s.pending = none)
    (htgt : ∀ e ∈ events, targetsWaiter dt commandId w e) :
    corrRun dt s events = s := by
  induction events with
  | nil => rfl
  | cons e rest ih =>
    have he := htgt e (by simp)
    have hrest : ∀ e2 ∈ rest, targetsWaiter dt commandId w e2 :=
      fun e2 h2 => htgt e2 (by simp [h2])
    have hstep : corrStep dt s e = s := by
      cases e with
      | frame p =>
        obtain ⟨hsrc, r, hdec, hcorr⟩ := he
        simp [corrStep, handleReceivedMessage, hsrc, hdec, hcorr, hnone]
      | timer c w2 =>
        obtain ⟨hc, hw⟩ := he
        subst hc
        simp [corrStep, hnone]
    calc corrRun dt s (e :: rest) = corrRun dt (corrStep dt s e) rest := rfl
      _ = corrRun dt s rest := by rw [hstep]
      _ = s := ih hrest

/-- **C3.** For a command identifier with a pending waiter, any sequence of
events aimed at that waiter (matching Responses through the dispatcher,
and/or firings of its timeout closure, in any order and with any
duplication) resumes the waiter exactly once — zero times only when no
event occurs at all.  In particular resolution and timeout are mutually
exclusive, and resolving or timing out an already-removed waiter is a
no-op that does not re-invoke the caller. -/
theorem correlation_exactly_once (dt : DaemonType) (commandId : UUID)
    (w : Nat) (s : CorrState) (events : List CorrEvent)
    (hpend : dictGet commandId s.pending = some w)
    (hres : countResumes w s.resumes = 0)
    (htgt : ∀ e ∈ events, targetsWaiter dt commandId w e) :
    countResumes w (corrRun dt s events).resumes
      = if events.isEmpty then 0 else 1 := by
  cases events with
  | nil => simpa using hres
  | cons e rest =>
    have he := htgt e (by simp)
    have hrest : ∀ e2 ∈ rest, targetsWaiter dt commandId w e2 :=
      fun e2 h2 => htgt e2 (by simp [h2])
    have key : ∃ o, corrStep dt s e
        = { pending := dictRemove commandId s.pending
            resumes := s.resumes ++ [(w, o)] } := by
      cases e with
      | frame p =>
        obtain ⟨hsrc, r, hdec, hcorr⟩ := he
        refine ⟨.response r, ?_⟩
        simp [corrStep, handleReceivedMessage, hsrc, hdec, hcorr, hpend]
      | timer c w2 =>
        obtain ⟨hc, hw⟩ := he
        subst hc
        subst hw
        refine ⟨.timedOut, ?_⟩
        simp [corrStep, hpend]
    obtain ⟨o, hstep⟩ := key
    have hrun : corrRun dt s (e :: rest)
        = corrRun dt (corrStep dt s e) rest := rfl
    rw [hrun, hstep,
      corrRun_stable dt commandId w _ rest
        (dictGet_dictRemove commandId s.pending) hrest]
    rw [countResumes_append, hres]
    simp [countResumes]

/-- A concrete Response answering command "cmd-3". -/
def rC3 : ResponseMessage :=
  { id := ⟨"33333333-0000-0000-0000-000000000003"⟩
    timestamp := 0
    source := .system
    target := some .user
    correlationId := ⟨"cmd-3"⟩
    success := true
    result := none
    errorMessage := none }

def pC3 : PubSubMessage := PubSubMessage.init (.response rC3) .normal

/-- **C3 witness.** The theorem applied to a concrete race: waiter 0 is
pending for "cmd-3", its timeout fires first and then the matching
Response arrives; the waiter is resumed exactly once. -/
theorem correlation_exactly_once_witness :
    countResumes 0 (corrRun .user ⟨[(⟨"cmd-3"⟩, 0)], []⟩
        [.timer ⟨"cmd-3"⟩ 0, .frame pC3]).resumes
      = if ([CorrEvent.timer ⟨"cmd-3"⟩ 0, .frame pC3] : List CorrEvent).isEmpty
        then 0 else 1 :=
  correlation_exactly_once .user ⟨"cmd-3"⟩ 0 ⟨[(⟨"cmd-3"⟩, 0)], []⟩
    [.timer ⟨"cmd-3"⟩ 0, .frame pC3] rfl rfl
    (by
      intro e he
      simp at he
      rcases he with h | h <;> subst h
      · exact ⟨rfl, rfl⟩
      · exact ⟨by decide, rC3, rfl, rfl⟩)

/-! ### Claim C4 -/

/-- `TransportError`: an opaque wrapped broker/transport failure (the
`Error` existentials carried by `publishFailed` / `subscriptionFailed`). -/
structure TransportError where
  message : String
deriving DecidableEq

/-- `PubSubError` (PubSubManager.swift) — note: it has **no**
`duplicateCorrelation` case. -/
inductive PubSubError where
  | notConfigured : PubSubError
  | timeout : PubSubError
  | unsupportedMessageType : MessageType → PubSubError
  | publishFailed : TransportError → PubSubError
  | subscriptionFailed : TransportError → PubSubError
deriving DecidableEq

/-- **C4 (amended).** Registering a waiter for a command identifier that is
already pending is *not* rejected: the subscript assignment silently
installs the new waiter, replacing any existing one, and `PubSubError` has
no `DuplicateCorrelation` case at all (its cases are exactly
`notConfigured`, `timeout`, `unsupportedMessageType`, `publishFailed`,
`subscriptionFailed`). -/
theorem register_replaces_pending :
    (∀ (s : CorrState) (commandId : UUID) (w : Nat),
        dictGet commandId (registerPendingResponse s commandId w).pending
          = some w)
  ∧ ∀ e : PubSubError, e = .notConfigured ∨ e = .timeout
      ∨ (∃ t, e = .unsupportedMessageType t)
      ∨ (∃ te, e = .publishFailed te)
      ∨ (∃ te, e = .subscriptionFailed te) := by
  constructor
  · intro s commandId w
    simp [registerPendingResponse, dictInsert, dictGet]
  · intro e
    cases e <;> simp

/-- **C4 counterexample.** With waiter 0 pending for "cmd-4", registering
waiter 1 for the same identifier succeeds and replaces waiter 0 — no
rejection, refuting "rejected with a DuplicateCorrelation error; it does
not silently replace the existing waiter". -/
theorem register_duplicate_not_rejected :
    dictGet ⟨"cmd-4"⟩
        (registerPendingResponse ⟨[(⟨"cmd-4"⟩, 0)], []⟩ ⟨"cmd-4"⟩ 1).pending
      = some 1
    ∧ (1 : Nat) ≠ 0 :=
  ⟨rfl, by decide⟩

/-! ### Configuration and channel routing (Configuration.swift,
PubSubManager.swift) -/

/-- `ChannelConfiguration` (Configuration.swift). -/
structure ChannelConfiguration where
  systemChannel : String
  userChannel : String
  heartbeatChannel : String
  commandChannel : String
  statusChannel : String
deriving DecidableEq

/-- `ChannelConfiguration.default`. -/
def ChannelConfiguration.default : ChannelConfiguration :=
  { systemChannel := "dualdaemon.system"
    userChannel := "dualdaemon.user"
    heartbeatChannel := "dualdaemon.heartbeat"
    commandChannel := "dualdaemon.command"
    statusChannel := "dualdaemon.status" }

/-- `PubSubConfiguration` (Configuration.swift). -/
structure PubSubConfiguration where
  publishKey : String
  subscribeKey : String
  userId : String
  channels : ChannelConfiguration
  connectionTimeout : Rat
  heartbeatInterval : Rat
  presenceTimeout : Rat

/-- `getChannelsForDaemonType` (PubSubManager.swift): the channel set the
owning role subscribes to (`self.configuration.channels` passed
explicitly). -/
def getChannelsForDaemonType (daemonType : DaemonType)
    (channels : ChannelConfiguration) : List String :=
  match daemonType with
  | .user =>
    [channels.userChannel, channels.heartbeatChannel,
     channels.commandChannel, channels.statusChannel]
  | .system =>
    [channels.systemChannel, channels.heartbeatChannel,
     channels.commandChannel, channels.statusChannel]
  | .broadcast =>
    [channels.systemChannel, channels.userChannel, channels.heartbeatChannel,
     channels.commandChannel, channels.statusChannel]

/-- **C7.** The subscribed channel set per role: `user` → exactly the user,
heartbeat, command and status channels; `system` → exactly the system,
heartbeat, command and status channels; `broadcast` → all five.  Under the
default channel configuration the user role's set excludes the system
channel. -/
theorem channels_for_role (ch : ChannelConfiguration) :
    getChannelsForDaemonType .user ch
      = [ch.userChannel, ch.heartbeatChannel, ch.commandChannel,
         ch.statusChannel]
  ∧ getChannelsForDaemonType .system ch
      = [ch.systemChannel, ch.heartbeatChannel, ch.commandChannel,
         ch.statusChannel]
  ∧ getChannelsForDaemonType .broadcast ch
      = [ch.systemChannel, ch.userChannel, ch.heartbeatChannel,
         ch.commandChannel, ch.statusChannel]
  ∧ ChannelConfiguration.default.systemChannel
      ∉ getChannelsForDaemonType .user ChannelConfiguration.default :=
  ⟨rfl, rfl, rfl, by decide⟩

/-- `getDefaultChannelForMessage` (PubSubManager.swift): the publish
channel used when the caller gives none.  The Swift function receives the
message and switches on `message.messageType` only, so it is modelled on
`MessageType`. -/
def getDefaultChannelForMessage (channels : ChannelConfiguration)
    (daemonType : DaemonType) (messageType : MessageType) : String :=
  match messageType with
  | .heartbeat => channels.heartbeatChannel
  | .systemStatus => channels.statusChannel
  | .command | .response => channels.commandChannel
  | .userActivity => channels.userChannel
  | _ => if daemonType = .user then channels.userChannel
         else channels.systemChannel

/-- **C8.** The default publish channel per message kind: heartbeat → the
heartbeat channel, system-status → the status channel, command and
response → the command channel, user-activity → the user channel, and
every other kind (configuration, error, shutdown) → the user channel for
the user role, the system channel otherwise. -/
theorem default_publish_channel (ch : ChannelConfiguration)
    (dt : DaemonType) :
    getDefaultChannelForMessage ch dt .heartbeat = ch.heartbeatChannel
  ∧ getDefaultChannelForMessage ch dt .systemStatus = ch.statusChannel
  ∧ getDefaultChannelForMessage ch dt .command = ch.commandChannel
  ∧ getDefaultChannelForMessage ch dt .response = ch.commandChannel
  ∧ getDefaultChannelForMessage ch dt .userActivity = ch.userChannel
  ∧ (getDefaultChannelForMessage ch dt .configuration
       = if dt = .user then ch.userChannel else ch.systemChannel)
  ∧ (getDefaultChannelForMessage ch dt .error
       = if dt = .user then ch.userChannel else ch.systemChannel)
  ∧ (getDefaultChannelForMessage ch dt .shutdown
       = if dt = .user then ch.userChannel else ch.systemChannel) :=
  ⟨rfl, rfl, rfl, rfl, rfl, rfl, rfl, rfl⟩

/-! ### The connection manager (PubSubManager.swift) -/

/-- Errors surfaced by `connect`/`publish`: either a `PubSubError` thrown by
the manager itself, or a transport (PubNub SDK) error rethrown from the
publish completion handler. -/
inductive ConnError where
  | pubSub : PubSubError → ConnError
  | transport : TransportError → ConnError
deriving DecidableEq

/-- `ConnectionStatus` (PubSubManager.swift). -/
inductive ConnectionStatus where
  | disconnected : ConnectionStatus
  | connecting : ConnectionStatus
  | connected : ConnectionStatus
  | reconnecting : ConnectionStatus
  | failed : ConnError → ConnectionStatus
deriving DecidableEq

/-- The configured PubNub transport handle built by `setupPubNub`. -/
structure PubNubHandle where
  publishKey : String
  subscribeKey : String
  userId : String
deriving DecidableEq

/-- `PubSubManager`'s mutable state. -/
structure PubSubManager where
  pubnub : Option PubNubHandle
  configuration : PubSubConfiguration
  daemonType : DaemonType
  connectionStatus : ConnectionStatus
  subscribedChannels : List String
  pendingResponses : List (UUID × Nat)

/-- `setupPubNub`: builds the transport handle from the configured
credentials. -/
def setupPubNub (configuration : PubSubConfiguration) : PubNubHandle :=
  { publishKey := configuration.publishKey
    subscribeKey := configuration.subscribeKey
    userId := configuration.userId }

/-- `PubSubManager.init(configuration:daemonType:logger:)`: stores the
configuration and role and always calls `setupPubNub()`, so `pubnub` is
always populated. -/
def PubSubManager.init (configuration : PubSubConfiguration)
    (daemonType : DaemonType) : PubSubManager :=
  { pubnub := some (setupPubNub configuration)
    configuration := configuration
    daemonType := daemonType
    connectionStatus := .disconnected
    subscribedChannels := []
    pendingResponses := [] }

/-- Environment oracles for the effectful steps: the transport's answer to
a publish, and the best-effort metrics and fresh identifiers sampled when
building a heartbeat (`getSystemLoad`, `getMemoryUsage`,
`ProcessInfo.processInfo.systemUptime`, `UUID()`, `Date()`). -/
structure Env where
  transport : Except TransportError Unit
  systemLoad : Option Rat
  memoryUsage : Option Rat
  uptime : Rat
  freshId : UUID
  now : Rat

/-- `publish(message:to:)`: throws `notConfigured` when `pubnub` is `nil`,
otherwise resolves the target channel (the explicit channel, or the
kind-default) and hands the frame to the transport, rethrowing a transport
failure.  Returns the channel published to. -/
def publish (env : Env) (s : PubSubManager) (message : BaseMessage)
    (channel : Option String) : Except ConnError String :=
  match s.pubnub with
  | none => .error (.pubSub .notConfigured)
  | some _ =>
    let targetChannel := channel.getD
      (getDefaultChannelForMessage s.configuration.channels s.daemonType
        message.messageType)
    match env.transport with
    | .ok _ => .ok targetChannel
    | .error e => .error (.transport e)

/-- `sendHeartbeat()`: builds a heartbeat from the sampled metrics and
publishes it to the heartbeat channel. -/
def sendHeartbeat (env : Env) (s : PubSubManager) : Except ConnError String :=
  publish env s
    (.heartbeat
      { id := env.freshId
        timestamp := env.now
        source := s.daemonType
        target := none
        systemLoad := env.systemLoad
        memoryUsage := env.memoryUsage
        uptime := env.uptime })
    (some s.configuration.channels.heartbeatChannel)

/-- `connect()`: `guard let pubnub` throws `notConfigured`; otherwise
subscribes to the role's channel set, records the subscription and the
`connected` status, starts the heartbeat and sends the initial heartbeat,
rethrowing its failure (the `catch` also records a `failed` status, which
the `Except` error carries here). -/
def connect (env : Env) (s : PubSubManager) : Except ConnError PubSubManager :=
  match s.pubnub with
  | none => .error (.pubSub .notConfigured)
  | some _ =>
    let channels := getChannelsForDaemonType s.daemonType
      s.configuration.channels
    let s2 := { s with subscribedChannels := channels
                       connectionStatus := .connected }
    match sendHeartbeat env s2 with
    | .ok _ => .ok s2
    | .error e => .error e

/-! ### Claim C5 -/

/-- **C5.** `connect()` fails with `notConfigured` if and only if no
transport handle is set (`pubnub == nil`), regardless of how the transport
answers; and for a manager constructed through `init` — which always runs
`setupPubNub()` — `connect()` never throws `notConfigured`. -/
theorem connect_notConfigured_iff (env : Env) (s : PubSubManager) :
    (connect env s = .error (.pubSub .notConfigured) ↔ s.pubnub = none)
  ∧ ∀ (cfg : PubSubConfiguration) (dt : DaemonType),
      connect env (PubSubManager.init cfg dt)
        ≠ .error (.pubSub .notConfigured) := by
  have key : ∀ (m : PubSubManager) (hand : PubNubHandle),
      m.pubnub = some hand →
      connect env m ≠ .error (.pubSub .notConfigured) := by
    intro m hand hp h
    rcases ht : env.transport with _ | e <;>
      simp [connect, sendHeartbeat, publish, hp, ht] at h
  constructor
  · constructor
    · intro h
      rcases hp : s.pubnub with _ | hand
      · rfl
      · exact absurd h (key s hand hp)
    · intro h
      simp [connect, h]
  · intro cfg dt
    exact key (PubSubManager.init cfg dt) (setupPubNub cfg) rfl
